import Mathlib

/-!
Verification of the backend orchestration subsystem of the `typset_image`
repository (process runner, LaTeX and Typst rendering backends, hash-addressed
cache directories, color substitution), shallowly embedded from the Rust
sources in `src/`.

Conventions of the embedding:
* Rust `String`/`&str` become Lean `String`; byte indices of `char`s such as
  the result of `str::find` are modelled by the equivalent character-level
  suffix (all searched characters are ASCII).
* Machine integers (`u64` hash values) are `Nat` with explicit `% 2 ^ 64`.
* The filesystem and the process-wide current directory are an explicit
  `World` value threaded through the effectful functions.
* Each external process invocation is recorded in a trace
  (`Invocation`), and its outcome (`std::process::Output`, or a spawn
  failure) is supplied by the caller as an oracle value, since the behaviour
  of `latex`, `dvisvgm`, `magick` and `typst` is outside the program.
-/

set_option autoImplicit false

/-- Model of Rust `std::process::ExitStatus`: a success flag plus a numeric
code used only for display. -/
structure ExitStatus where
  success : Bool
  code : Int
deriving DecidableEq, Repr

/-- Model of Rust `std::process::Output`: exit status plus captured stdout
and stderr, decoded as UTF-8 text (the code asserts the tools emit UTF-8). -/
structure Output where
  status : ExitStatus
  stdout : String
  stderr : String
deriving DecidableEq, Repr

/-- The error type of the process runner, from `src/backends.rs`
(`CommandError`): either the executable could not be started, or it ran and
exited with a nonzero status. -/
inductive CommandError where
  | errorSpawning (command : String)
  | error (status : ExitStatus) (command : String) (message : String)
deriving DecidableEq, Repr

/-- Rust `char::is_ascii_whitespace`: space, tab, newline, form feed or
carriage return. -/
def isAsciiWhitespace (c : Char) : Bool :=
  c = ' ' || c = '\t' || c = '\n' || c.toNat = 12 || c = '\r'

/-- Split a character list at every newline, keeping the (possibly empty)
fragments between them, as `str::split('\n')` would. -/
def splitNL : List Char → List (List Char)
  | [] => [[]]
  | c :: rest =>
    if c = '\n' then [] :: splitNL rest
    else
      match splitNL rest with
      | [] => [[c]]
      | l :: ls => (c :: l) :: ls

/-- Strip one trailing carriage return, as Rust `str::lines` does for
fragments terminated by `\r\n`. -/
def stripCR (l : List Char) : List Char :=
  if l.getLast? = some '\r' then l.dropLast else l

/-- Helper for `rustLines`: every fragment except the last was followed by a
`\n` (so its trailing `\r` is stripped); a final empty fragment comes from a
trailing line terminator and yields no line, and a final non-empty fragment
had no terminator so keeps any trailing `\r`. -/
def rustLinesAux : List (List Char) → List String
  | [] => []
  | [l] => if l = [] then [] else [String.mk l]
  | l :: rest => String.mk (stripCR l) :: rustLinesAux rest

/-- Model of Rust `str::lines`: split at `\n` (also consuming a preceding
`\r`), with the final line terminator optional and a trailing terminator
producing no extra empty line. -/
def rustLines (s : String) : List String :=
  rustLinesAux (splitNL s.data)

/-- Whether the string contains a `!` character (Rust
`message.find('!').is_some()`). -/
def hasBang (s : String) : Bool :=
  s.data.any (fun c => c = '!')

/-- The suffix of `s` starting at the first `!` character, i.e. Rust
`&message[idx..]` where `idx = message.find('!')` (`!` is ASCII, so byte and
character positions agree). -/
def bangSuffix (s : String) : String :=
  String.mk (s.data.dropWhile (fun c => c ≠ '!'))

/-- Join a list of strings with newline separators, as
`Itertools::join(_, "\n")` does. -/
def joinNL : List String → String
  | [] => ""
  | [l] => l
  | l :: rest => l ++ "\n" ++ joinNL rest

/-- Whether a line contains at least one character that is not ASCII
whitespace, i.e. Rust `l.chars().any(|c| !c.is_ascii_whitespace())`. -/
def lineNonBlank (l : String) : Bool :=
  l.data.any (fun c => !(isAsciiWhitespace c))

/-- Diagnostic-message extraction performed by `run_command` in
`src/backends.rs` lines 85-96 (identically in `src/latex.rs` lines 163-172)
when the spawned process exits with a nonzero status: take stdout; if stdout
is empty take stderr instead (returned in full); otherwise, if stdout
contains a `!`, keep the suffix from the first `!` truncated to the leading
run of non-blank lines, joined by `\n`; otherwise return stdout in full. -/
def extractMessage (stdout stderr : String) : String :=
  if stdout = "" then
    stderr
  else if hasBang stdout then
    joinNL ((rustLines (bangSuffix stdout)).takeWhile lineNonBlank)
  else
    stdout

/-- Modelled from the spec: the diagnostic-extraction rule as the spec and
claim C1 word it — choose stdout if non-empty, else stderr, and apply the
`!`-truncation heuristic to the CHOSEN text (whichever stream it came from).
Used only to compare against `extractMessage`, the rule the code implements. -/
def claimedExtractMessage (stdout stderr : String) : String :=
  let chosen := if stdout = "" then stderr else stdout
  if hasBang chosen then
    joinNL ((rustLines (bangSuffix chosen)).takeWhile lineNonBlank)
  else
    chosen

/-- Model of `run_command` from `src/backends.rs` lines 60-103: the outcome
of the spawned process is the oracle argument `result` (`none` models a spawn
error). On success the captured stdout is returned; on nonzero exit the
`CommandError.error` variant carries the exit status, the command name and
the extracted diagnostic message. The argument list does not influence the
classification. -/
def run_command (command : String) (_args : List String) (result : Option Output) :
    Except CommandError String :=
  match result with
  | none => .error (.errorSpawning command)
  | some o =>
    if o.status.success then
      .ok o.stdout
    else
      .error (.error o.status command (extractMessage o.stdout o.stderr))

/-- Reduction modulo `2 ^ 64`, the wrap-around of Rust `u64` arithmetic. -/
def mod64 (n : Nat) : Nat := n % 2 ^ 64

/-- Left rotation of a 64-bit value by `n` bits. -/
def rotl64 (x n : Nat) : Nat := mod64 (x * 2 ^ n) ||| x / 2 ^ (64 - n)

/-- State of the SipHash hasher behind Rust `DefaultHasher`: four 64-bit
words. -/
structure SipState where
  v0 : Nat
  v1 : Nat
  v2 : Nat
  v3 : Nat
deriving DecidableEq, Repr

/-- One SipHash round, as in Rust `core::hash::sip`. -/
def sipRound (s : SipState) : SipState :=
  let v0 := mod64 (s.v0 + s.v1)
  let v1 := rotl64 s.v1 13
  let v1 := Nat.xor v1 v0
  let v0 := rotl64 v0 32
  let v2 := mod64 (s.v2 + s.v3)
  let v3 := rotl64 s.v3 16
  let v3 := Nat.xor v3 v2
  let v0 := mod64 (v0 + v3)
  let v3 := rotl64 v3 21
  let v3 := Nat.xor v3 v0
  let v2 := mod64 (v2 + v1)
  let v1 := rotl64 v1 17
  let v1 := Nat.xor v1 v2
  let v2 := rotl64 v2 32
  ⟨v0, v1, v2, v3⟩

/-- Compression of one 8-byte message word for SipHash-1-3 (one round per
word, as `DefaultHasher` uses). -/
def sipCompress (s : SipState) (m : Nat) : SipState :=
  let s1 : SipState := { s with v3 := Nat.xor s.v3 m }
  let s2 := sipRound s1
  { s2 with v0 := Nat.xor s2.v0 m }

/-- Initial state of `DefaultHasher::new()` / `DefaultHasher::default()`:
SipHash keys fixed to `(0, 0)`, hence the four initialization constants
themselves.  This constant is what makes the hash stable across process
runs: no per-process randomness enters the state. -/
def sipInit : SipState :=
  ⟨0x736f6d6570736575, 0x646f72616e646f6d, 0x6c7967656e657261, 0x7465646279746573⟩

/-- Little-endian interpretation of up to eight bytes as a 64-bit word. -/
def leWord (bs : List Nat) : Nat :=
  bs.foldr (fun b acc => b + 256 * acc) 0

/-- Fold the complete 8-byte words of the byte stream into the hasher
state. -/
def sipBlocksState : SipState → List Nat → SipState
  | s, b0 :: b1 :: b2 :: b3 :: b4 :: b5 :: b6 :: b7 :: rest =>
    sipBlocksState (sipCompress s (leWord [b0, b1, b2, b3, b4, b5, b6, b7])) rest
  | s, _ => s

/-- The trailing bytes of the stream after all complete 8-byte words. -/
def sipTail : List Nat → List Nat
  | _ :: _ :: _ :: _ :: _ :: _ :: _ :: _ :: rest => sipTail rest
  | tail => tail

/-- Finishing step of `DefaultHasher` (SipHash-1-3) on a byte stream:
compress all complete words, then the final word holding the trailing bytes
and the stream length, then three finalization rounds. -/
def defaultHasherFinish (bytes : List Nat) : Nat :=
  let s := sipBlocksState sipInit bytes
  let b := mod64 (bytes.length % 256 * 2 ^ 56 + leWord (sipTail bytes))
  let s1 := sipCompress s b
  let s2 := { s1 with v2 := Nat.xor s1.v2 255 }
  let s3 := sipRound (sipRound (sipRound s2))
  mod64 (Nat.xor (Nat.xor s3.v0 s3.v1) (Nat.xor s3.v2 s3.v3))

/-- UTF-8 encoding of one Unicode scalar value, matching Rust
`str::as_bytes`. -/
def utf8Bytes (c : Char) : List Nat :=
  let n := c.toNat
  if n < 0x80 then [n]
  else if n < 0x800 then
    [0xC0 ||| n >>> 6, 0x80 ||| (n &&& 0x3F)]
  else if n < 0x10000 then
    [0xE0 ||| n >>> 12, 0x80 ||| (n >>> 6 &&& 0x3F), 0x80 ||| (n &&& 0x3F)]
  else
    [0xF0 ||| n >>> 18, 0x80 ||| (n >>> 12 &&& 0x3F), 0x80 ||| (n >>> 6 &&& 0x3F),
      0x80 ||| (n &&& 0x3F)]

/-- The UTF-8 byte stream of a string. -/
def stringBytes (s : String) : List Nat :=
  (s.data.map utf8Bytes).flatten

/-- Model of `Gui::equation_hash` from `src/gui.rs` lines 130-134: feed the
equation through `DefaultHasher` (Rust `impl Hash for str` writes the UTF-8
bytes followed by a `0xff` length-prefix-free terminator byte) and take the
finished 64-bit value. -/
def equation_hash (eq : String) : Nat :=
  defaultHasherFinish (stringBytes eq ++ [255])

/-- Path concatenation, modelling `PathBuf::join` with a relative right
component. -/
def pathJoin (a b : String) : String := a ++ "/" ++ b

/-- Model of `get_dir` from `src/latex.rs` lines 51-54 (also `src/gui.rs`
lines 523-526): the cache directory of an equation hash is
`latex_<hash-in-decimal>` under the process-wide cache root (`CACHE_DIR`, the
platform local-data directory plus `latex_image`, resolved once at startup;
it enters here as the `cacheRoot` parameter). -/
def get_dir (cacheRoot : String) (hash : Nat) : String :=
  pathJoin cacheRoot ("latex_" ++ toString hash)

/-- The error type of the GUI-facing operations, from `src/main.rs` lines
31-47; the empty-input variant carries the backend's stylized name, as in its
use `GuiError::NoEquation(self.backend.stylized())` in `src/gui.rs` line
238. -/
inductive GuiError where
  | noEquation (backend : String)
  | tempDir
  | getSetCurrentDir
  | writeFile (path : String)
  | readFile (path : String)
  | copyFile (src dst : String)
  | command (e : CommandError)
deriving DecidableEq, Repr

/-- The two-variant backend enumeration from `src/backends.rs` lines 11-16
(`Typst` is the default). -/
inductive Backend where
  | laTeX
  | typst
deriving DecidableEq, Repr

/-- Model of `Backend::letter` from `src/backends.rs`. -/
def Backend.letter : Backend → String
  | .laTeX => "L"
  | .typst => "T"

/-- Model of `Backend::name` from `src/backends.rs`. -/
def Backend.name : Backend → String
  | .laTeX => "latex"
  | .typst => "typst"

/-- Model of `Backend::stylized` from `src/backends.rs`. -/
def Backend.stylized : Backend → String
  | .laTeX => "LaTeX"
  | .typst => "Typst"

/-- The target image format, from `src/gui.rs` lines 50-55. -/
inductive ImageFormat where
  | svg
  | png
deriving DecidableEq, Repr

/-- The `Display` implementation of `ImageFormat` from `src/gui.rs` lines
71-78, used to build `{color}_eq.{format}` file names. -/
def ImageFormat.display : ImageFormat → String
  | .svg => "svg"
  | .png => "png"

/-- One recorded external process invocation: executable name and ordered
argument list. -/
structure Invocation where
  command : String
  args : List String
deriving DecidableEq, Repr

/-- The explicit filesystem-and-process state threaded through the effectful
functions: text files by absolute path (later writes shadow earlier ones),
the set of existing directories, and the process-wide current working
directory. -/
structure World where
  files : List (String × String)
  dirs : List String
  cwd : String
deriving DecidableEq, Repr

/-- Content of the file at path `p`, if present (the most recent write
wins). -/
def lookupFile : List (String × String) → String → Option String
  | [], _ => none
  | (q, c) :: rest, p => if p = q then some c else lookupFile rest p

/-- Read a text file, modelling `fs::read_to_string`. -/
def readFile (w : World) (p : String) : Option String :=
  lookupFile w.files p

/-- Write a text file, modelling `fs::write` (creates or overwrites). -/
def writeFile (w : World) (p c : String) : World :=
  { w with files := (p, c) :: w.files }

/-- Replace every occurrence of a non-empty pattern, scanning left to right
without overlap, as Rust `str::replace` does.  The `fuel` argument makes the
recursion structural; each step consumes at least one character, so a fuel of
the input length is enough. -/
def replaceAux (pat repl : List Char) : Nat → List Char → List Char
  | _, [] => []
  | 0, l => l
  | fuel + 1, c :: rest =>
    if pat.isPrefixOf (c :: rest) then
      repl ++ replaceAux pat repl fuel (rest.drop (pat.length - 1))
    else
      c :: replaceAux pat repl fuel rest

/-- Model of Rust `str::replace` for a non-empty pattern. -/
def replaceStr (s pat repl : String) : String :=
  String.mk (replaceAux pat.data repl.data s.data.length s.data)

/-- The fixed LaTeX document preamble from `src/latex.rs` lines 27-37, wrapped
around the user's equation (math document class, math packages, color package,
UTF-8 input, neutral white foreground). -/
def LATEX_START : String :=
  "\\documentclass[12pt]{article}\n\\usepackage{amsmath}\n\\usepackage{amssymb}\n\\usepackage{amsfonts}\n\\usepackage[usenames,dvipsnames]{color}\n\\usepackage[utf8]{inputenc}\n\\thispagestyle{empty}\n\\begin{document}\n\\color{white}\n\\begin{align*}\n    "

/-- The fixed LaTeX document epilogue from `src/latex.rs` lines 39-41. -/
def LATEX_END : String := "\n\\end{align*}\n\\end{document}"

namespace latex

/-- Model of `set_color` from `src/latex.rs` lines 119-134: read `eq.svg`
from the hash's cache directory, replace every occurrence of the fixed white
placeholder `#fff` by `color`, and write the result to `{color}_eq.svg` in
the same directory.  A missing `eq.svg` is a read error naming `eq.svg`. -/
def set_color (cacheRoot : String) (hash : Nat) (color : String) (w : World) :
    World × Except GuiError Unit :=
  let dir := get_dir cacheRoot hash
  match readFile w (pathJoin dir "eq.svg") with
  | none => (w, .error (.readFile "eq.svg"))
  | some svg =>
    let colored := replaceStr svg "#fff" color
    (writeFile w (pathJoin dir (color ++ "_eq.svg")) colored, .ok ())

/-- Model of `gen_svg` from `src/latex.rs` lines 56-95: record the current
directory, create the cache directory (failing with `TempDir` if it already
exists), change into it, write `eq.tex` wrapping the equation in the fixed
preamble, run `latex` then `dvisvgm` (on success the converter materializes
`eq.svg`, whose text is the oracle value `svgContent`), derive the colored
variant via `set_color`, and restore the recorded directory. -/
def gen_svg (cacheRoot eq : String) (hash : Nat) (color : String)
    (latexRes dvisvgmRes : Option Output) (svgContent : String) (w : World) :
    List Invocation × World × Except GuiError String :=
  let initialDir := w.cwd
  let dir := get_dir cacheRoot hash
  if dir ∈ w.dirs then
    ([], w, .error .tempDir)
  else
    let w1 : World := { w with dirs := dir :: w.dirs, cwd := dir }
    let w2 := writeFile w1 (pathJoin dir "eq.tex") (LATEX_START ++ eq ++ LATEX_END)
    let latexInv : Invocation :=
      ⟨"latex", ["-no-shell-escape", "-interaction=nonstopmode", "-halt-on-error", "eq.tex"]⟩
    match run_command "latex" latexInv.args latexRes with
    | .error e => ([latexInv], w2, .error (.command e))
    | .ok _ =>
      let dviInv : Invocation :=
        ⟨"dvisvgm", ["--no-fonts", "--scale=1", "--exact", "-o eq.svg", "eq.dvi"]⟩
      match run_command "dvisvgm" dviInv.args dvisvgmRes with
      | .error e => ([latexInv, dviInv], w2, .error (.command e))
      | .ok _ =>
        let w3 := writeFile w2 (pathJoin dir "eq.svg") svgContent
        let sc := set_color cacheRoot hash color w3
        match sc.2 with
        | .error e => ([latexInv, dviInv], sc.1, .error e)
        | .ok _ =>
          if initialDir ∈ sc.1.dirs then
            ([latexInv, dviInv], { sc.1 with cwd := initialDir }, .ok dir)
          else
            ([latexInv, dviInv], sc.1, .error .getSetCurrentDir)

/-- Model of `gen_png` from `src/latex.rs` lines 97-116: change into the
cache directory, run the raster converter turning `{color}_eq.svg` into
`{color}_eq.png` with transparent background at the given density (its bytes
are the oracle value `pngContent`), and restore the recorded directory. -/
def gen_png (dir color : String) (density : Nat)
    (magickRes : Option Output) (pngContent : String) (w : World) :
    List Invocation × World × Except GuiError String :=
  let initialDir := w.cwd
  if dir ∈ w.dirs then
    let w1 : World := { w with cwd := dir }
    let inv : Invocation :=
      ⟨"magick.exe", ["convert", "-background", "none", "-density", toString density,
        color ++ "_eq.svg", color ++ "_eq.png"]⟩
    match run_command "magick.exe" inv.args magickRes with
    | .error e => ([inv], w1, .error (.command e))
    | .ok _ =>
      let w2 := writeFile w1 (pathJoin dir (color ++ "_eq.png")) pngContent
      if initialDir ∈ w2.dirs then
        ([inv], { w2 with cwd := initialDir }, .ok dir)
      else
        ([inv], w2, .error .getSetCurrentDir)
  else
    ([], w, .error .getSetCurrentDir)

end latex

/-- The vendored Typst compiler path from `src/typst.rs` line 20. -/
def TYPST : String := "C:\\Users\\andre\\CLionProjects\\typst\\target\\release\\typst.exe"

/-- The fixed Typst source preamble from `src/typst.rs` lines 10-11: page
sized to content with zero margin, then a text-fill directive awaiting the
color. -/
def TYPST_START : String :=
  "#set page(width: auto, height: auto, margin: 0pt)\n#set text(fill: "

namespace typst

/-- The output target of a Typst render, from `src/typst.rs` lines 13-16. -/
inductive Image where
  | svg
  | png (dpi : Nat)
deriving DecidableEq, Repr

/-- Model of `gen_image` from `src/typst.rs` lines 18-60: record the current
directory, change into `dir`, write `eq.typ` as the fixed preamble completed
with the color followed by the equation wrapped in `$ ... $`, invoke the
Typst compiler once (SVG target, or PNG target with `--ppi` and a transparent
`--background`), always with `--diagnostic-format short`, and restore the
recorded directory. -/
def gen_image (eq dir color : String) (image : Image) (typstRes : Option Output)
    (w : World) : List Invocation × World × Except GuiError Unit :=
  let initialDir := w.cwd
  if dir ∈ w.dirs then
    let w1 : World := { w with cwd := dir }
    let w2 := writeFile w1 (pathJoin dir "eq.typ")
      (TYPST_START ++ color ++ ")\n$ " ++ eq ++ " $")
    let inv : Invocation :=
      match image with
      | .svg => ⟨TYPST, ["compile", "eq.typ", color ++ "_eq.svg", "--diagnostic-format", "short"]⟩
      | .png dpi =>
        ⟨TYPST, ["compile", "eq.typ", color ++ "_eq.png", "--diagnostic-format", "short",
          "--ppi", toString dpi, "--background", "#00000000"]⟩
    match run_command TYPST inv.args typstRes with
    | .error e => ([inv], w2, .error (.command e))
    | .ok _ =>
      if initialDir ∈ w2.dirs then
        ([inv], { w2 with cwd := initialDir }, .ok ())
      else
        ([inv], w2, .error .getSetCurrentDir)
  else
    ([], w, .error .getSetCurrentDir)

/-- Model of `gen_svg` from `src/typst.rs` lines 62-65, a thin wrapper
selecting the SVG target. -/
def gen_svg (eq dir color : String) (typstRes : Option Output) (w : World) :
    List Invocation × World × Except GuiError Unit :=
  gen_image eq dir color .svg typstRes w

/-- Model of `gen_png` from `src/typst.rs` lines 67-70, a thin wrapper
selecting the PNG target with the given density. -/
def gen_png (eq dir color : String) (density : Nat) (typstRes : Option Output)
    (w : World) : List Invocation × World × Except GuiError Unit :=
  gen_image eq dir color (.png density) typstRes w

end typst

/-- The folder icons from `src/icons.rs`. -/
inductive Icon where
  | folder
  | folder2
  | folder2Open
deriving DecidableEq, Repr

/-- The GUI state machine's display state, from `src/gui.rs` lines 101-107. -/
inductive State where
  | compiling
  | svgState (dir : String)
  | pngState (dir : String)
  | errored (e : GuiError)
deriving DecidableEq, Repr

/-- The default color constant from `src/gui.rs` line 167. -/
def DEFAULT_COLOR : String := "white"

/-- The application state from `src/gui.rs` lines 115-127 (widget handles
omitted; `typst_dir` is the per-session temporary directory's path). -/
structure Gui where
  equation : String
  name : Option String
  color : Option String
  compiledColor : String
  format : ImageFormat
  dpi : Nat
  outDir : String
  state : State
  folderIcon : Icon
  backend : Backend
  typstDir : String
deriving DecidableEq, Repr

/-- Model of `Gui::color` from `src/gui.rs` lines 136-138: the entered color,
defaulting to white. -/
def Gui.colorOrDefault (g : Gui) : String :=
  g.color.getD DEFAULT_COLOR

/-- Model of `Gui::equation_hash` on the application state. -/
def Gui.equationHash (g : Gui) : Nat :=
  equation_hash g.equation

/-- Model of `Gui::cache_dir` from `src/gui.rs` lines 140-145: the LaTeX
backend addresses by equation hash, the Typst backend uses the session
temporary directory. -/
def Gui.cacheDir (cacheRoot : String) (g : Gui) : String :=
  match g.backend with
  | .laTeX => get_dir cacheRoot g.equationHash
  | .typst => g.typstDir

/-- An asynchronous backend operation dispatched by `Gui::update` via
`Command::perform`. -/
inductive BgTask where
  | setColorTask (cacheRoot : String) (hash : Nat) (color : String)
  | latexGenSvg (eq cacheRoot : String) (hash : Nat) (color : String)
  | latexGenPng (dir color : String) (dpi : Nat)
  | typstGenSvg (eq dir color : String)
  | typstGenPng (eq dir color : String) (dpi : Nat)
deriving DecidableEq, Repr

/-- An observable effect of one `Gui::update` step: a dispatched backend
task, or the GUI-owned `copy_to_dest` file copy (not an external process). -/
inductive Effect where
  | perform (t : BgTask)
  | copyToDest
deriving DecidableEq, Repr

/-- Oracle for the outcomes of the external tools a dispatched task may
invoke, plus the file contents those tools would produce. -/
structure Oracle where
  latexRes : Option Output
  dvisvgmRes : Option Output
  svgContent : String
  magickRes : Option Output
  pngContent : String
  typstRes : Option Output
deriving DecidableEq, Repr

/-- Execution of a dispatched task against the world, yielding its process
invocations, the world afterwards, and its result. -/
def runTask (o : Oracle) (w : World) : BgTask → List Invocation × World × Except GuiError Unit
  | .setColorTask root hash color =>
    let r := latex.set_color root hash color w
    ([], r.1, r.2)
  | .latexGenSvg eq root hash color =>
    let r := latex.gen_svg root eq hash color o.latexRes o.dvisvgmRes o.svgContent w
    (r.1, r.2.1, r.2.2.map (fun _ => ()))
  | .latexGenPng dir color dpi =>
    let r := latex.gen_png dir color dpi o.magickRes o.pngContent w
    (r.1, r.2.1, r.2.2.map (fun _ => ()))
  | .typstGenSvg eq dir color => typst.gen_image eq dir color .svg o.typstRes w
  | .typstGenPng eq dir color dpi => typst.gen_image eq dir color (.png dpi) o.typstRes w

/-- The process invocations an effect performs (the `copy_to_dest` file copy
spawns none). -/
def effectInvocations (o : Oracle) (w : World) : Effect → List Invocation
  | .copyToDest => []
  | .perform t => (runTask o w t).1

/-- All process invocations of a list of dispatched effects, each evaluated
against the pre-update world. -/
def effectsInvocations (o : Oracle) (w : World) (effs : List Effect) : List Invocation :=
  (effs.map (effectInvocations o w)).flatten

/-- The messages of `Gui::update` relevant to the rendering flow, from
`src/gui.rs` (`Compile`, `SvgGenerated`, `PngGenerated`). -/
inductive Message where
  | compile
  | svgGenerated (r : Except GuiError Unit)
  | pngGenerated (r : Except GuiError Unit)
deriving Repr

/-- The `SvgGenerated(Ok(()))` arm of `Gui::update` (`src/gui.rs` lines
290-316): for the SVG target, show the artifact and copy it to the
destination; for the PNG target, dispatch the backend's `gen_png`
(`Backend::gen_png` routes to `latex::gen_png(dir, color, dpi)` or
`typst::gen_png(eq, dir, color, dpi)`, `src/backends.rs` lines 40-45). -/
def handleSvgGeneratedOk (cacheRoot : String) (g : Gui) : Gui × List Effect :=
  let dir := Gui.cacheDir cacheRoot g
  match g.format with
  | .svg => ({ g with state := .svgState dir }, [.copyToDest])
  | .png =>
    let task :=
      match g.backend with
      | .laTeX => BgTask.latexGenPng dir g.colorOrDefault g.dpi
      | .typst => BgTask.typstGenPng g.equation dir g.colorOrDefault g.dpi
    (g, [.perform task])

/-- Model of the rendering arms of `Gui::update` from `src/gui.rs` lines
218-327.  `Compile` (lines 236-289): an empty equation fails immediately
with the empty-input error and dispatches nothing; otherwise for the LaTeX
backend, an existing cache directory leads either directly to the
already-present colored SVG or to a `set_color` dispatch, and only a missing
cache directory dispatches `latex::gen_svg`; the Typst backend always
recompiles into the session directory.  The filesystem checks
(`dir.exists()`, `img.exists()`) read the explicit world `w`. -/
def Gui.update (cacheRoot : String) (w : World) (g : Gui) : Message → Gui × List Effect
  | .compile =>
    if g.equation = "" then
      ({ g with state := .errored (.noEquation g.backend.stylized) }, [])
    else
      let color := g.colorOrDefault
      let g1 : Gui := { g with state := .compiling, compiledColor := color }
      match g.backend with
      | .laTeX =>
        let hash := equation_hash g.equation
        let dir := get_dir cacheRoot hash
        if dir ∈ w.dirs then
          if (readFile w (pathJoin dir (color ++ "_eq." ++ g.format.display))).isSome
              ∧ g.format = .svg then
            handleSvgGeneratedOk cacheRoot g1
          else
            (g1, [.perform (.setColorTask cacheRoot hash color)])
        else
          (g1, [.perform (.latexGenSvg g.equation cacheRoot hash color)])
      | .typst => (g1, [.perform (.typstGenSvg g.equation g.typstDir color)])
  | .svgGenerated (.ok _) => handleSvgGeneratedOk cacheRoot g
  | .svgGenerated (.error e) => ({ g with state := .errored e }, [])
  | .pngGenerated (.ok _) =>
    ({ g with state := .pngState (Gui.cacheDir cacheRoot g) }, [.copyToDest])
  | .pngGenerated (.error e) => ({ g with state := .errored e }, [])

/-- Concrete application state used to witness hash stability. -/
def sampleGuiA : Gui :=
  ⟨"x^2", none, some "red", "white", .svg, 600, ".", .compiling, .folder, .laTeX, "T"⟩

/-- The same equation in an otherwise different application state. -/
def sampleGuiB : Gui :=
  ⟨"x^2", some "out.png", some "blue", "red", .png, 1200, "D:", .compiling, .folder2, .laTeX, "U"⟩

/-- Concrete world holding a rendered colorless `eq.svg` for hash 7, used to
witness the color-substitution contract. -/
def sampleWorldSvg : World :=
  ⟨[(pathJoin (get_dir "cache" 7) "eq.svg", "<svg>#fff</svg>")],
    ["home", get_dir "cache" 7], "home"⟩

/-- A successful external process outcome with empty captured streams. -/
def okOutput : Option Output := some ⟨⟨true, 0⟩, "", ""⟩

/-- A world whose only directory is the initial working directory. -/
def sampleWorldHome : World := ⟨[], ["home"], "home"⟩

/-- A world holding the Typst session temporary directory besides the
initial working directory. -/
def sampleWorldTypst : World := ⟨[], ["home", "tdir"], "home"⟩

/-- An application state holding the empty equation. -/
def sampleGuiEmpty : Gui :=
  ⟨"", none, none, "white", .svg, 600, ".", .compiling, .folder, .laTeX, "T"⟩

/-- Oracle where every tool succeeds. -/
def sampleOracle : Oracle := ⟨okOutput, okOutput, "svg", okOutput, "png", okOutput⟩

/-- A LaTeX-backend application state holding the equation `x`. -/
def sampleGuiX : Gui :=
  ⟨"x", none, none, "white", .svg, 600, ".", .compiling, .folder, .laTeX, "T"⟩

/-- A world already holding the cache directory for the hash of `x`. -/
def sampleWorldCached : World :=
  ⟨[], ["home", get_dir "cache" (equation_hash "x")], "home"⟩

/-- Appending on the left is cancellable for strings. -/
theorem strAppendLeftCancel (s a b : String) (h : s ++ a = s ++ b) : a = b := by
  have hd : s.data ++ a.data = s.data ++ b.data := congrArg String.data h
  exact congrArg String.mk (List.append_cancel_left hd)

/-- Appending on the right is cancellable for strings. -/
theorem strAppendRightCancel (a b s : String) (h : a ++ s = b ++ s) : a = b := by
  have hd : a.data ++ s.data = b.data ++ s.data := congrArg String.data h
  exact congrArg String.mk (List.append_cancel_right hd)

/-- A colored artifact name `{color}_eq.svg` is never the colorless
`eq.svg` (it is at least one character longer). -/
theorem coloredNameNeSvg (c : String) : c ++ "_eq.svg" ≠ "eq.svg" := by
  intro h
  have hl := congrArg String.length h
  rw [String.length_append] at hl
  have h7 : ("_eq.svg" : String).length = 7 := by decide
  have h6 : ("eq.svg" : String).length = 6 := by decide
  omega

/-- `pathJoin` with a fixed directory is injective in the file name. -/
theorem pathJoinRightInj (d a b : String) (h : pathJoin d a = pathJoin d b) : a = b :=
  strAppendLeftCancel (d ++ "/") a b h

/-- Distinct colors give distinct colored artifact paths in the same
directory. -/
theorem coloredPathInj (d c1 c2 : String) (h : c1 ≠ c2) :
    pathJoin d (c1 ++ "_eq.svg") ≠ pathJoin d (c2 ++ "_eq.svg") := by
  intro he
  exact h (strAppendRightCancel c1 c2 "_eq.svg" (pathJoinRightInj d _ _ he))

/-- Reading back the file just written yields its content. -/
theorem readFile_writeFile_self (w : World) (p c : String) :
    readFile (writeFile w p c) p = some c := by
  simp [readFile, writeFile, lookupFile]

/-- Writing one file leaves every other path unchanged. -/
theorem readFile_writeFile_other (w : World) (p c q : String) (h : q ≠ p) :
    readFile (writeFile w p c) q = readFile w q := by
  simp [readFile, writeFile, lookupFile, h]

/-- C5: `run_command` returns `Ok` with the captured stdout exactly when the
process exits with a success status; it fails with `ErrorSpawning` carrying
the executable name exactly when the process could not be started; and it
fails with the execution-error variant carrying the exit status, the command
name and the extracted diagnostic message exactly when the process ran but
exited nonzero. -/
theorem run_command_classifies (cmd : String) (args : List String) (res : Option Output) :
    (∀ s, run_command cmd args res = .ok s ↔
      ∃ o, res = some o ∧ o.status.success = true ∧ s = o.stdout)
    ∧ (run_command cmd args res = .error (.errorSpawning cmd) ↔ res = none)
    ∧ (∀ o, res = some o → o.status.success = false →
        run_command cmd args res =
          .error (.error o.status cmd (extractMessage o.stdout o.stderr))) := by
  refine ⟨?_, ⟨?_, ?_⟩, ?_⟩
  · intro s
    constructor
    · intro h
      cases res with
      | none => simp [run_command] at h
      | some o =>
        by_cases hs : o.status.success
        · refine ⟨o, rfl, hs, ?_⟩
          simp [run_command, hs] at h
          exact h.symm
        · simp [run_command, hs] at h
    · rintro ⟨o, rfl, hs, rfl⟩
      simp [run_command, hs]
  · intro h
    cases res with
    | none => rfl
    | some o =>
      by_cases hs : o.status.success <;> simp [run_command, hs] at h
  · rintro rfl
    rfl
  · rintro o rfl hs
    simp [run_command, hs]

/-- Witness for C5: a nonzero exit of `latex` is classified as the
execution-error variant with the extracted message. -/
theorem run_command_classifies_witness :
    run_command "latex" ["eq.tex"] (some ⟨⟨false, 1⟩, "", "could not open file"⟩) =
      .error (.error ⟨false, 1⟩ "latex"
        (extractMessage "" "could not open file")) :=
  (run_command_classifies "latex" ["eq.tex"]
    (some ⟨⟨false, 1⟩, "", "could not open file"⟩)).2.2 _ rfl rfl

/-- C10: on a successful invocation the captured stdout alone is returned;
the captured stderr is discarded and the result does not depend on it. -/
theorem run_command_success_ignores_stderr (cmd : String) (args : List String)
    (st : ExitStatus) (so se se2 : String) (h : st.success = true) :
    run_command cmd args (some ⟨st, so, se⟩) = .ok so
    ∧ run_command cmd args (some ⟨st, so, se⟩) = run_command cmd args (some ⟨st, so, se2⟩) := by
  constructor
  · simp [run_command, h]
  · simp [run_command, h]

/-- Witness for C10: a tool that exits successfully while printing to stderr
still yields `Ok` of the stdout text, with no trace of the stderr text. -/
theorem run_command_success_ignores_stderr_witness :
    (⟨true, 0⟩ : ExitStatus).success = true
    ∧ (run_command "dvisvgm" [] (some ⟨⟨true, 0⟩, "out", "warning: font"⟩) = .ok "out"
      ∧ run_command "dvisvgm" [] (some ⟨⟨true, 0⟩, "out", "warning: font"⟩)
        = run_command "dvisvgm" [] (some ⟨⟨true, 0⟩, "out", ""⟩)) :=
  ⟨rfl, run_command_success_ignores_stderr "dvisvgm" [] ⟨true, 0⟩ "out" "warning: font" "" rfl⟩

/-- Counterexample to C1 as stated: when stdout is empty and the chosen text
(stderr) contains a `!`, the code does NOT truncate at the `!` — stderr is
returned in full — whereas the claim's rule would keep only the non-blank run
after the first `!`.  Exhibited both on the extraction function and through
`run_command` itself at a concrete failing invocation. -/
theorem extract_message_stderr_not_truncated :
    extractMessage "" "junk\n! error text\n\nmore junk"
      ≠ claimedExtractMessage "" "junk\n! error text\n\nmore junk"
    ∧ extractMessage "" "junk\n! error text\n\nmore junk" = "junk\n! error text\n\nmore junk"
    ∧ claimedExtractMessage "" "junk\n! error text\n\nmore junk" = "! error text"
    ∧ run_command "latex" ["eq.tex"]
        (some ⟨⟨false, 1⟩, "", "junk\n! error text\n\nmore junk"⟩)
      = .error (.error ⟨false, 1⟩ "latex" "junk\n! error text\n\nmore junk") := by
  refine ⟨by decide, by decide, by decide, ?_⟩
  simp [run_command]
  decide

/-- C1 (amended): on nonzero exit the message prefers stdout if non-empty,
else stderr; the `!`-truncation (suffix from the first `!`, kept for the
contiguous run of lines containing a non-whitespace character, joined by
newlines) applies only when stdout was chosen; a chosen stderr — and a chosen
stdout without `!` — is returned in full. -/
theorem extract_message_amended (so se : String) :
    (so = "" → extractMessage so se = se)
    ∧ (so ≠ "" → hasBang so = false → extractMessage so se = so)
    ∧ (so ≠ "" → hasBang so = true →
        extractMessage so se = joinNL ((rustLines (bangSuffix so)).takeWhile lineNonBlank)) := by
  refine ⟨?_, ?_, ?_⟩
  · intro h
    simp [extractMessage, h]
  · intro h hb
    simp [extractMessage, h, hb]
  · intro h hb
    simp [extractMessage, h, hb]

/-- Witness for C1 (amended): the spec's synthetic blob — stdout containing
`! Undefined control sequence.` — is truncated to start at `!` and stops at
the first blank line. -/
theorem extract_message_amended_witness :
    extractMessage "pre log\n! Undefined control sequence.\nl.5 \\foo\n\n" "e"
      = "! Undefined control sequence.\nl.5 \\foo" := by
  have h := (extract_message_amended "pre log\n! Undefined control sequence.\nl.5 \\foo\n\n" "e").2.2
    (by decide) (by decide)
  rw [h]
  decide

/-- C6: the equation hash is a pure function of the equation text alone —
two application states agreeing on the equation (whatever their other
fields, and with the hasher always starting from the fixed-key
`DefaultHasher` initial state, so no per-process randomness enters) get the
same 64-bit hash value and hence the same cache directory name. -/
theorem equation_hash_stable (root : String) (g1 g2 : Gui)
    (h : g1.equation = g2.equation) :
    g1.equationHash = g2.equationHash
    ∧ get_dir root g1.equationHash = get_dir root g2.equationHash
    ∧ g1.equationHash < 2 ^ 64 := by
  have he : g1.equationHash = g2.equationHash := by
    unfold Gui.equationHash
    rw [h]
  refine ⟨he, by rw [he], ?_⟩
  show equation_hash g1.equation < 2 ^ 64
  unfold equation_hash defaultHasherFinish
  exact Nat.mod_lt _ (by norm_num)

/-- Witness for C6 at two concrete states sharing the equation `x^2`. -/
theorem equation_hash_stable_witness :
    sampleGuiA.equation = sampleGuiB.equation
    ∧ (sampleGuiA.equationHash = sampleGuiB.equationHash
      ∧ get_dir "cache" sampleGuiA.equationHash = get_dir "cache" sampleGuiB.equationHash
      ∧ sampleGuiA.equationHash < 2 ^ 64) :=
  ⟨rfl, equation_hash_stable "cache" sampleGuiA sampleGuiB rfl⟩

/-- C3: `set_color` writes to `{color}_eq.svg` exactly the text of `eq.svg`
with every occurrence of the white placeholder `#fff` replaced by the color;
the original `eq.svg` is unchanged; two different colors produce two
independent files; and a missing `eq.svg` fails with the read error. -/
theorem set_color_spec (root : String) (hash : Nat) (c c2 svg : String) (w : World)
    (hsvg : readFile w (pathJoin (get_dir root hash) "eq.svg") = some svg)
    (hcc : c ≠ c2) :
    ((latex.set_color root hash c w).2 = .ok ()
      ∧ readFile (latex.set_color root hash c w).1
          (pathJoin (get_dir root hash) (c ++ "_eq.svg")) = some (replaceStr svg "#fff" c)
      ∧ readFile (latex.set_color root hash c w).1
          (pathJoin (get_dir root hash) "eq.svg") = some svg)
    ∧ (readFile (latex.set_color root hash c2 (latex.set_color root hash c w).1).1
          (pathJoin (get_dir root hash) (c ++ "_eq.svg")) = some (replaceStr svg "#fff" c)
      ∧ readFile (latex.set_color root hash c2 (latex.set_color root hash c w).1).1
          (pathJoin (get_dir root hash) (c2 ++ "_eq.svg")) = some (replaceStr svg "#fff" c2)
      ∧ readFile (latex.set_color root hash c2 (latex.set_color root hash c w).1).1
          (pathJoin (get_dir root hash) "eq.svg") = some svg)
    ∧ (∀ w2 : World, readFile w2 (pathJoin (get_dir root hash) "eq.svg") = none →
        latex.set_color root hash c w2 = (w2, .error (.readFile "eq.svg"))) := by
  have hsrc_ne_c : pathJoin (get_dir root hash) "eq.svg"
      ≠ pathJoin (get_dir root hash) (c ++ "_eq.svg") := by
    intro h
    exact coloredNameNeSvg c (pathJoinRightInj _ _ _ h).symm
  have hsrc_ne_c2 : pathJoin (get_dir root hash) "eq.svg"
      ≠ pathJoin (get_dir root hash) (c2 ++ "_eq.svg") := by
    intro h
    exact coloredNameNeSvg c2 (pathJoinRightInj _ _ _ h).symm
  have hc_ne_c2 : pathJoin (get_dir root hash) (c ++ "_eq.svg")
      ≠ pathJoin (get_dir root hash) (c2 ++ "_eq.svg") :=
    coloredPathInj _ c c2 hcc
  have hstep1 : latex.set_color root hash c w =
      (writeFile w (pathJoin (get_dir root hash) (c ++ "_eq.svg"))
        (replaceStr svg "#fff" c), .ok ()) := by
    simp only [latex.set_color, hsvg]
  have hread1 : readFile (latex.set_color root hash c w).1
      (pathJoin (get_dir root hash) "eq.svg") = some svg := by
    rw [hstep1]
    rw [readFile_writeFile_other _ _ _ _ hsrc_ne_c]
    exact hsvg
  have hread1w : readFile
      (writeFile w (pathJoin (get_dir root hash) (c ++ "_eq.svg")) (replaceStr svg "#fff" c))
      (pathJoin (get_dir root hash) "eq.svg") = some svg := by
    rw [readFile_writeFile_other _ _ _ _ hsrc_ne_c]
    exact hsvg
  have hstep2 : latex.set_color root hash c2 (latex.set_color root hash c w).1 =
      (writeFile (latex.set_color root hash c w).1
        (pathJoin (get_dir root hash) (c2 ++ "_eq.svg"))
        (replaceStr svg "#fff" c2), .ok ()) := by
    rw [hstep1]
    simp only [latex.set_color, hread1w]
  refine ⟨⟨?_, ?_, hread1⟩, ⟨?_, ?_, ?_⟩, ?_⟩
  · rw [hstep1]
  · rw [hstep1]
    exact readFile_writeFile_self _ _ _
  · rw [hstep2, readFile_writeFile_other _ _ _ _ hc_ne_c2, hstep1]
    exact readFile_writeFile_self _ _ _
  · rw [hstep2]
    exact readFile_writeFile_self _ _ _
  · rw [hstep2, readFile_writeFile_other _ _ _ _ hsrc_ne_c2]
    exact hread1
  · intro w2 h2
    simp only [latex.set_color, h2]

/-- Witness for C3 at a concrete directory, file and color pair. -/
theorem set_color_spec_witness :
    (readFile sampleWorldSvg (pathJoin (get_dir "cache" 7) "eq.svg") = some "<svg>#fff</svg>"
      ∧ ("red" : String) ≠ "blue")
    ∧ ((latex.set_color "cache" 7 "red" sampleWorldSvg).2 = .ok ()
      ∧ readFile (latex.set_color "cache" 7 "red" sampleWorldSvg).1
          (pathJoin (get_dir "cache" 7) ("red" ++ "_eq.svg"))
          = some (replaceStr "<svg>#fff</svg>" "#fff" "red")
      ∧ readFile (latex.set_color "cache" 7 "red" sampleWorldSvg).1
          (pathJoin (get_dir "cache" 7) "eq.svg") = some "<svg>#fff</svg>") :=
  ⟨⟨by decide, by decide⟩,
    (set_color_spec "cache" 7 "red" "blue" "<svg>#fff</svg>" sampleWorldSvg
      (by decide) (by decide)).1⟩

/-- Simp fact: writing a file does not change the directory set. -/
@[simp] theorem writeFile_dirs (w : World) (p c : String) :
    (writeFile w p c).dirs = w.dirs := rfl

/-- Simp fact: writing a file does not change the current directory. -/
@[simp] theorem writeFile_cwd (w : World) (p c : String) :
    (writeFile w p c).cwd = w.cwd := rfl

/-- Simp fact: an `Except.error` value is not `isOk`. -/
@[simp] theorem exceptIsOkFalse {ε α : Type} (e : ε) :
    (Except.error e : Except ε α).isOk = false := rfl

/-- Simp fact: an `Except.ok` value is `isOk`. -/
@[simp] theorem exceptIsOkTrue {ε α : Type} (a : α) :
    (Except.ok a : Except ε α).isOk = true := rfl

/-- C7: every successful backend render operation returns with the
process-wide current directory equal to its value on entry — the initial
directory recorded at the start is restored before returning, for
`latex::gen_svg`, `latex::gen_png` and `typst::gen_image` alike. -/
theorem cwd_restored_on_success :
    (∀ (root eq : String) (hash : Nat) (color : String) (r1 r2 : Option Output)
        (svgc : String) (w : World),
      (latex.gen_svg root eq hash color r1 r2 svgc w).2.2.isOk = true →
      (latex.gen_svg root eq hash color r1 r2 svgc w).2.1.cwd = w.cwd)
    ∧ (∀ (dir color : String) (density : Nat) (mr : Option Output) (pc : String) (w : World),
      (latex.gen_png dir color density mr pc w).2.2.isOk = true →
      (latex.gen_png dir color density mr pc w).2.1.cwd = w.cwd)
    ∧ (∀ (eq dir color : String) (img : typst.Image) (tr : Option Output) (w : World),
      (typst.gen_image eq dir color img tr w).2.2.isOk = true →
      (typst.gen_image eq dir color img tr w).2.1.cwd = w.cwd) := by
  refine ⟨?_, ?_, ?_⟩
  · intro root eq hash color r1 r2 svgc w h
    by_cases h1 : get_dir root hash ∈ w.dirs
    · simp [latex.gen_svg, h1] at h
    · cases hc1 : run_command "latex"
          ["-no-shell-escape", "-interaction=nonstopmode", "-halt-on-error", "eq.tex"] r1 with
      | error e => simp [latex.gen_svg, h1, hc1] at h
      | ok s1 =>
        cases hc2 : run_command "dvisvgm"
            ["--no-fonts", "--scale=1", "--exact", "-o eq.svg", "eq.dvi"] r2 with
        | error e => simp [latex.gen_svg, h1, hc1, hc2] at h
        | ok s2 =>
          simp only [latex.gen_svg, if_neg h1, hc1, hc2] at h ⊢
          split at h
          · simp at h
          · rename_i val heq
            split at h
            · rename_i h2
              rw [if_pos h2]
            · simp at h
  · intro dir color density mr pc w h
    by_cases h1 : dir ∈ w.dirs
    · cases hc : run_command "magick.exe"
          ["convert", "-background", "none", "-density", toString density,
            color ++ "_eq.svg", color ++ "_eq.png"] mr with
      | error e => simp [latex.gen_png, h1, hc] at h
      | ok s =>
        simp only [latex.gen_png, if_pos h1, hc, writeFile_dirs] at h ⊢
        by_cases h2 : w.cwd ∈ w.dirs
        · rw [if_pos h2] at h ⊢
        · rw [if_neg h2] at h
          simp at h
    · simp [latex.gen_png, h1] at h
  · intro eq dir color img tr w h
    cases img with
    | svg =>
      by_cases h1 : dir ∈ w.dirs
      · cases hc : run_command TYPST
            ["compile", "eq.typ", color ++ "_eq.svg", "--diagnostic-format", "short"] tr with
        | error e => simp [typst.gen_image, h1, hc] at h
        | ok s =>
          simp only [typst.gen_image, if_pos h1, hc, writeFile_dirs] at h ⊢
          by_cases h2 : w.cwd ∈ w.dirs
          · rw [if_pos h2] at h ⊢
          · rw [if_neg h2] at h
            simp at h
      · simp [typst.gen_image, h1] at h
    | png dpi =>
      by_cases h1 : dir ∈ w.dirs
      · cases hc : run_command TYPST
            ["compile", "eq.typ", color ++ "_eq.png", "--diagnostic-format", "short",
              "--ppi", toString dpi, "--background", "#00000000"] tr with
        | error e => simp [typst.gen_image, h1, hc] at h
        | ok s =>
          simp only [typst.gen_image, if_pos h1, hc, writeFile_dirs] at h ⊢
          by_cases h2 : w.cwd ∈ w.dirs
          · rw [if_pos h2] at h ⊢
          · rw [if_neg h2] at h
            simp at h
      · simp [typst.gen_image, h1] at h

/-- Witness for C7: concrete successful runs of all three operations leave
the current directory as it was on entry. -/
theorem cwd_restored_on_success_witness :
    ((latex.gen_svg "cache" "x" 1 "red" okOutput okOutput "<svg>#fff</svg>"
        sampleWorldHome).2.2.isOk = true
      ∧ (latex.gen_svg "cache" "x" 1 "red" okOutput okOutput "<svg>#fff</svg>"
        sampleWorldHome).2.1.cwd = sampleWorldHome.cwd)
    ∧ ((latex.gen_png (get_dir "cache" 7) "red" 600 okOutput "png bytes"
        sampleWorldSvg).2.2.isOk = true
      ∧ (latex.gen_png (get_dir "cache" 7) "red" 600 okOutput "png bytes"
        sampleWorldSvg).2.1.cwd = sampleWorldSvg.cwd)
    ∧ ((typst.gen_image "x" "tdir" "red" .svg okOutput sampleWorldTypst).2.2.isOk = true
      ∧ (typst.gen_image "x" "tdir" "red" .svg okOutput sampleWorldTypst).2.1.cwd
        = sampleWorldTypst.cwd) :=
  ⟨⟨by decide, cwd_restored_on_success.1 "cache" "x" 1 "red" okOutput okOutput
      "<svg>#fff</svg>" sampleWorldHome (by decide)⟩,
    ⟨by decide, cwd_restored_on_success.2.1 (get_dir "cache" 7) "red" 600 okOutput
      "png bytes" sampleWorldSvg (by decide)⟩,
    ⟨by decide, cwd_restored_on_success.2.2 "x" "tdir" "red" .svg okOutput
      sampleWorldTypst (by decide)⟩⟩

/-- C8: for every equation, directory and color, the Typst backend writes
`eq.typ` as the fixed preamble (page sized to content, zero margin, text
fill set to the color) followed by the equation wrapped in math delimiters,
and invokes the Typst compiler exactly once — output `{color}_eq.svg` for
SVG, or `{color}_eq.png` plus `--ppi` and a transparent `--background` for
PNG, always with `--diagnostic-format short`. -/
theorem typst_gen_image_spec (eq dir color : String) (img : typst.Image)
    (tr : Option Output) (w : World) (hdir : dir ∈ w.dirs) :
    readFile (typst.gen_image eq dir color img tr w).2.1 (pathJoin dir "eq.typ")
      = some (TYPST_START ++ color ++ ")\n$ " ++ eq ++ " $")
    ∧ (typst.gen_image eq dir color img tr w).1 =
      [⟨TYPST,
        match img with
        | .svg => ["compile", "eq.typ", color ++ "_eq.svg", "--diagnostic-format", "short"]
        | .png dpi => ["compile", "eq.typ", color ++ "_eq.png", "--diagnostic-format",
            "short", "--ppi", toString dpi, "--background", "#00000000"]⟩] := by
  cases img with
  | svg =>
    cases hc : run_command TYPST
        ["compile", "eq.typ", color ++ "_eq.svg", "--diagnostic-format", "short"] tr with
    | error e =>
      exact ⟨by simp [typst.gen_image, hdir, hc, readFile, writeFile, lookupFile],
        by simp [typst.gen_image, hdir, hc]⟩
    | ok s =>
      by_cases h2 : w.cwd ∈ w.dirs
      · exact ⟨by simp [typst.gen_image, hdir, hc, h2, readFile, writeFile, lookupFile],
          by simp [typst.gen_image, hdir, hc, h2]⟩
      · exact ⟨by simp [typst.gen_image, hdir, hc, h2, readFile, writeFile, lookupFile],
          by simp [typst.gen_image, hdir, hc, h2]⟩
  | png dpi =>
    cases hc : run_command TYPST
        ["compile", "eq.typ", color ++ "_eq.png", "--diagnostic-format", "short",
          "--ppi", toString dpi, "--background", "#00000000"] tr with
    | error e =>
      exact ⟨by simp [typst.gen_image, hdir, hc, readFile, writeFile, lookupFile],
        by simp [typst.gen_image, hdir, hc]⟩
    | ok s =>
      by_cases h2 : w.cwd ∈ w.dirs
      · exact ⟨by simp [typst.gen_image, hdir, hc, h2, readFile, writeFile, lookupFile],
          by simp [typst.gen_image, hdir, hc, h2]⟩
      · exact ⟨by simp [typst.gen_image, hdir, hc, h2, readFile, writeFile, lookupFile],
          by simp [typst.gen_image, hdir, hc, h2]⟩

/-- Witness for C8 at a concrete PNG render in the session directory. -/
theorem typst_gen_image_spec_witness :
    ("tdir" ∈ sampleWorldTypst.dirs)
    ∧ (readFile (typst.gen_image "x + y" "tdir" "blue" (.png 600) okOutput
          sampleWorldTypst).2.1 (pathJoin "tdir" "eq.typ")
        = some (TYPST_START ++ "blue" ++ ")\n$ " ++ "x + y" ++ " $")
      ∧ (typst.gen_image "x + y" "tdir" "blue" (.png 600) okOutput sampleWorldTypst).1 =
        [⟨TYPST, ["compile", "eq.typ", "blue" ++ "_eq.png", "--diagnostic-format",
          "short", "--ppi", toString 600, "--background", "#00000000"]⟩]) :=
  ⟨by decide,
    typst_gen_image_spec "x + y" "tdir" "blue" (.png 600) okOutput sampleWorldTypst (by decide)⟩

/-- Helper: `set_color` never changes the set of existing directories. -/
theorem set_color_dirs (root : String) (hash : Nat) (color : String) (w : World) :
    (latex.set_color root hash color w).1.dirs = w.dirs := by
  cases hr : readFile w (pathJoin (get_dir root hash) "eq.svg") with
  | none => simp [latex.set_color, hr]
  | some svg => simp [latex.set_color, hr]

/-- C9: `gen_svg` creates the hash-derived cache directory as a new
directory — failing with the directory-lifecycle error `TempDir`, without
invoking any external tool and without touching the world, when it already
exists — and it is the caller's existence check in `Gui::update` that keeps
`gen_svg` from being dispatched for a previously-seen equation. -/
theorem gen_svg_requires_fresh_dir :
    (∀ (root eq : String) (hash : Nat) (color : String) (r1 r2 : Option Output)
        (svgc : String) (w : World), get_dir root hash ∈ w.dirs →
      latex.gen_svg root eq hash color r1 r2 svgc w = ([], w, .error GuiError.tempDir))
    ∧ (∀ (root eq : String) (hash : Nat) (color : String) (r1 r2 : Option Output)
        (svgc : String) (w : World), get_dir root hash ∉ w.dirs →
      get_dir root hash ∈ (latex.gen_svg root eq hash color r1 r2 svgc w).2.1.dirs)
    ∧ (∀ (cacheRoot : String) (w : World) (g : Gui) (eq r : String) (h : Nat) (c : String),
      Effect.perform (BgTask.latexGenSvg eq r h c) ∈ (Gui.update cacheRoot w g .compile).2 →
      get_dir cacheRoot h ∉ w.dirs) := by
  refine ⟨?_, ?_, ?_⟩
  · intro root eq hash color r1 r2 svgc w hmem
    simp [latex.gen_svg, hmem]
  · intro root eq hash color r1 r2 svgc w hnot
    cases hc1 : run_command "latex"
        ["-no-shell-escape", "-interaction=nonstopmode", "-halt-on-error", "eq.tex"] r1 with
    | error e => simp [latex.gen_svg, hnot, hc1]
    | ok s1 =>
      cases hc2 : run_command "dvisvgm"
          ["--no-fonts", "--scale=1", "--exact", "-o eq.svg", "eq.dvi"] r2 with
      | error e => simp [latex.gen_svg, hnot, hc1, hc2]
      | ok s2 =>
        simp only [latex.gen_svg, if_neg hnot, hc1, hc2]
        split
        · simp [set_color_dirs]
        · split
          · simp [set_color_dirs]
          · simp [set_color_dirs]
  · intro cacheRoot w g eq r h c hmem
    by_cases hemp : g.equation = ""
    · simp [Gui.update, hemp] at hmem
    · cases hb : g.backend with
      | typst => simp [Gui.update, hemp, hb] at hmem
      | laTeX =>
        by_cases hdir : get_dir cacheRoot (equation_hash g.equation) ∈ w.dirs
        · simp only [Gui.update, hemp, hb, hdir, if_true, if_false, ite_false, ite_true] at hmem
          split at hmem
          · cases hf : g.format with
            | svg => simp [handleSvgGeneratedOk, hf] at hmem
            | png => simp [handleSvgGeneratedOk, hf] at hmem
          · simp at hmem
        · simp [Gui.update, hemp, hb, hdir] at hmem
          obtain ⟨h1, h2, h3, h4⟩ := hmem
          subst h3
          exact hdir

/-- Witness for C9: with the hash-7 cache directory already present,
`gen_svg` fails with the directory-lifecycle error, runs no tool and leaves
the world untouched. -/
theorem gen_svg_requires_fresh_dir_witness :
    (get_dir "cache" 7 ∈ sampleWorldSvg.dirs)
    ∧ latex.gen_svg "cache" "x" 7 "red" okOutput okOutput "svg" sampleWorldSvg
      = ([], sampleWorldSvg, .error GuiError.tempDir) :=
  ⟨by decide, gen_svg_requires_fresh_dir.1 "cache" "x" 7 "red" okOutput okOutput
    "svg" sampleWorldSvg (by decide)⟩

/-- C4: a compile request for the empty equation fails immediately with the
empty-input error (before any backend operation is dispatched) and spawns
zero external processes. -/
theorem compile_empty_equation (cacheRoot : String) (w : World) (g : Gui)
    (h : g.equation = "") :
    Gui.update cacheRoot w g .compile
      = ({ g with state := .errored (.noEquation g.backend.stylized) }, [])
    ∧ ∀ o : Oracle, effectsInvocations o w (Gui.update cacheRoot w g .compile).2 = [] := by
  have h1 : Gui.update cacheRoot w g .compile
      = ({ g with state := .errored (.noEquation g.backend.stylized) }, []) := by
    simp [Gui.update, h]
  refine ⟨h1, fun o => ?_⟩
  rw [h1]
  rfl

/-- Witness for C4 at the empty equation. -/
theorem compile_empty_equation_witness :
    sampleGuiEmpty.equation = ""
    ∧ (Gui.update "cache" sampleWorldHome sampleGuiEmpty .compile
        = ({ sampleGuiEmpty with
            state := .errored (.noEquation sampleGuiEmpty.backend.stylized) }, [])
      ∧ ∀ o : Oracle, effectsInvocations o sampleWorldHome
          (Gui.update "cache" sampleWorldHome sampleGuiEmpty .compile).2 = []) :=
  ⟨rfl, compile_empty_equation "cache" sampleWorldHome sampleGuiEmpty rfl⟩

/-- Helper: every invocation `latex::gen_png` performs is the raster
converter, never the typesetting engine or the DVI converter. -/
theorem gen_png_trace_magick (dir color : String) (density : Nat) (mr : Option Output)
    (pc : String) (w : World) (inv : Invocation)
    (hmem : inv ∈ (latex.gen_png dir color density mr pc w).1) :
    inv.command = "magick.exe" := by
  by_cases h1 : dir ∈ w.dirs
  · cases hc : run_command "magick.exe"
        ["convert", "-background", "none", "-density", toString density,
          color ++ "_eq.svg", color ++ "_eq.png"] mr with
    | error e =>
      simp [latex.gen_png, h1, hc] at hmem
      rw [hmem]
    | ok s =>
      by_cases h2 : w.cwd ∈ w.dirs
      · simp [latex.gen_png, h1, hc, h2] at hmem
        rw [hmem]
      · simp [latex.gen_png, h1, hc, h2] at hmem
        rw [hmem]
  · simp [latex.gen_png, h1] at hmem

/-- C2: with the LaTeX backend and an already-existing cache directory for
the equation's hash, a compile dispatches either nothing but the destination
copy (when the colored SVG already exists and the target is SVG) or only the
color-substitution task; no external process at all is spawned by that
dispatch — in particular the typesetting engine and the DVI converter are
never invoked — and the later PNG continuation of a LaTeX render only ever
invokes the raster converter. -/
theorem compile_cached_skips_typesetting (cacheRoot : String) (w : World) (g : Gui)
    (o : Oracle) (hb : g.backend = .laTeX) (hne : g.equation ≠ "")
    (hdir : get_dir cacheRoot (equation_hash g.equation) ∈ w.dirs) :
    ((Gui.update cacheRoot w g .compile).2 = [Effect.copyToDest]
      ∨ (Gui.update cacheRoot w g .compile).2
        = [.perform (.setColorTask cacheRoot (equation_hash g.equation) g.colorOrDefault)])
    ∧ effectsInvocations o w (Gui.update cacheRoot w g .compile).2 = []
    ∧ ((readFile w (pathJoin (get_dir cacheRoot (equation_hash g.equation))
          (g.colorOrDefault ++ "_eq." ++ g.format.display))).isSome = true → g.format = .svg →
        (Gui.update cacheRoot w g .compile).2 = [Effect.copyToDest])
    ∧ (∀ g2 : Gui, g2.backend = .laTeX →
        ∀ inv ∈ effectsInvocations o w (handleSvgGeneratedOk cacheRoot g2).2,
          inv.command ≠ "latex" ∧ inv.command ≠ "dvisvgm") := by
  have hpart3 : (readFile w (pathJoin (get_dir cacheRoot (equation_hash g.equation))
        (g.colorOrDefault ++ "_eq." ++ g.format.display))).isSome = true → g.format = .svg →
      (Gui.update cacheRoot w g .compile).2 = [Effect.copyToDest] := by
    intro hr hf
    rw [hf] at hr
    simp [Gui.update, hne, hb, hdir, hr, hf, handleSvgGeneratedOk]
  have hmain : (Gui.update cacheRoot w g .compile).2 = [Effect.copyToDest]
      ∨ (Gui.update cacheRoot w g .compile).2
        = [.perform (.setColorTask cacheRoot (equation_hash g.equation) g.colorOrDefault)] := by
    by_cases himg : (readFile w (pathJoin (get_dir cacheRoot (equation_hash g.equation))
        (g.colorOrDefault ++ "_eq." ++ g.format.display))).isSome = true ∧ g.format = .svg
    · exact Or.inl (hpart3 himg.1 himg.2)
    · right
      simp only [Gui.update, if_neg hne, hb]
      rw [if_pos hdir, if_neg himg]
  have hpart4 : ∀ g2 : Gui, g2.backend = .laTeX →
      ∀ inv ∈ effectsInvocations o w (handleSvgGeneratedOk cacheRoot g2).2,
        inv.command ≠ "latex" ∧ inv.command ≠ "dvisvgm" := by
    intro g2 hb2 inv hmem
    cases hf : g2.format with
    | svg =>
      simp [handleSvgGeneratedOk, hf, effectsInvocations, effectInvocations] at hmem
    | png =>
      simp [handleSvgGeneratedOk, hf, hb2, effectsInvocations, effectInvocations,
        runTask] at hmem
      have hm := gen_png_trace_magick _ _ _ _ _ _ _ hmem
      rw [hm]
      exact ⟨by decide, by decide⟩
  refine ⟨hmain, ?_, hpart3, hpart4⟩
  rcases hmain with h1 | h1 <;>
    simp [h1, effectsInvocations, effectInvocations, runTask]

/-- Witness for C2: a second compile of the already-cached equation `x`
spawns no external process at all. -/
theorem compile_cached_skips_typesetting_witness :
    (sampleGuiX.backend = .laTeX ∧ sampleGuiX.equation ≠ ""
      ∧ get_dir "cache" (equation_hash sampleGuiX.equation) ∈ sampleWorldCached.dirs)
    ∧ effectsInvocations sampleOracle sampleWorldCached
        (Gui.update "cache" sampleWorldCached sampleGuiX .compile).2 = [] :=
  ⟨⟨rfl, by decide, by decide⟩,
    (compile_cached_skips_typesetting "cache" sampleWorldCached sampleGuiX sampleOracle
      rfl (by decide) (by decide)).2.1⟩
